import Mathlib

/-!
Verification of the multi-tenant WhatsApp session manager, prompt manager and
AI conversation-history handler.

The JavaScript sources are shallowly embedded as pure Lean functions:

* `src/sessionManager.js` keeps an in-memory `Map` from a mobile number to a
  session record; we model the `Map` as an association list `SMap` with the
  same get/set/delete semantics (insertion order, first match wins).
* asynchronous external effects (transport construction, pairing-code request,
  the Gemini call, file-system writes) are represented by explicit outcome
  parameters; each `try/catch` in the source becomes a branch on those
  parameters.
* JavaScript truthiness on strings is modelled by comparison with `""` and on
  objects/nullables by `Option`.
-/

/-- Association list keyed by strings, modelling a JavaScript `Map` whose keys
are mobile-number strings. -/
abbrev SMap (α : Type) := List (String × α)

/-- `Map.get`: first binding for the key, if any. -/
def SMap.get {α : Type} : SMap α → String → Option α
  | [], _ => none
  | (k₀, v₀) :: t, k => if k₀ = k then some v₀ else SMap.get t k

/-- `Map.has`. -/
def SMap.contains {α : Type} (l : SMap α) (k : String) : Bool :=
  (SMap.get l k).isSome

/-- `Map.set`: replace the existing binding in place, or append a new one. -/
def SMap.set {α : Type} : SMap α → String → α → SMap α
  | [], k, v => [(k, v)]
  | (k₀, v₀) :: t, k, v =>
      if k₀ = k then (k, v) :: t else (k₀, v₀) :: SMap.set t k v

/-- `Map.delete`. -/
def SMap.del {α : Type} : SMap α → String → SMap α
  | [], _ => []
  | (k₀, v₀) :: t, k =>
      if k₀ = k then SMap.del t k else (k₀, v₀) :: SMap.del t k

/-- `Map.size`. -/
def SMap.size {α : Type} (l : SMap α) : Nat := l.length

/-- Identity Key Normalizer: `mobile.replace(/\D/g, '')` keeps only digits. -/
def normalizeMobile (s : String) : String := String.mk (s.data.filter Char.isDigit)

/-- JavaScript `String.prototype.split` with a one-character separator:
consecutive separators yield empty fields, and the result is never empty. -/
def splitCharAux (c : Char) : List Char → List Char → List String
  | [], acc => [String.mk acc.reverse]
  | x :: xs, acc =>
      if x = c then String.mk acc.reverse :: splitCharAux c xs []
      else splitCharAux c xs (x :: acc)

/-- `s.split(c)` for a single-character separator. -/
def splitChar (s : String) (c : Char) : List String := splitCharAux c s.data []

/-- JavaScript `String.prototype.trim`: strip whitespace from both ends. -/
def jsTrim (s : String) : String :=
  String.mk (((s.data.dropWhile Char.isWhitespace).reverse.dropWhile
    Char.isWhitespace).reverse)

/-- JavaScript `body.startsWith('.')`. -/
def startsWithDot (s : String) : Bool :=
  match s.data with
  | [] => false
  | c :: _ => c = '.'

/-- JavaScript `body.slice(1)`. -/
def dropFirst (s : String) : String := String.mk (s.data.drop 1)

/-- JavaScript `args.join(' ')`. -/
def joinSpace : List String → String
  | [] => ""
  | [x] => x
  | x :: xs => x ++ " " ++ joinSpace xs

/-- One session record of `sessionManager.js` (`clients` map values).  The
transport handle (`client`) is opaque; we track only its presence.  The stored
`aiHandler` field is `null` or a handler reference; we track only presence. -/
structure SessionState where
  client : Bool
  status : String
  pairingCode : Option String
  lastActive : Nat
  aiHandler : Option Unit
deriving DecidableEq, Repr

/-- One partial update passed to `updateSessionState`; `none` means the field
is absent from the JavaScript object literal. -/
structure StatePatch where
  client : Option Bool := none
  status : Option String := none
  pairingCode : Option (Option String) := none
  lastActive : Option Nat := none
  aiHandler : Option (Option Unit) := none
deriving DecidableEq, Repr

/-- Spread merge `{ ...clients.get(mobile), ...state }`: fields present in the
patch win. -/
def applyPatch (e : SessionState) (p : StatePatch) : SessionState :=
  { client := p.client.getD e.client,
    status := p.status.getD e.status,
    pairingCode := p.pairingCode.getD e.pairingCode,
    lastActive := p.lastActive.getD e.lastActive,
    aiHandler := p.aiHandler.getD e.aiHandler }

/-- When the key is absent, `clients.set(mobile, state)` stores the patch as
the whole record; fields it omits are `undefined`, which every later read
treats like `null`/falsy, so they default to the empty values here. -/
def patchToState (p : StatePatch) : SessionState :=
  { client := p.client.getD false,
    status := p.status.getD "",
    pairingCode := p.pairingCode.getD none,
    lastActive := p.lastActive.getD 0,
    aiHandler := p.aiHandler.getD none }

/-- `updateSessionState` of `sessionManager.js` (lines 38-44). -/
def updateSessionState (reg : SMap SessionState) (m : String) (p : StatePatch) :
    SMap SessionState :=
  match SMap.get reg m with
  | some e => SMap.set reg m (applyPatch e p)
  | none => SMap.set reg m (patchToState p)

/-- A stored prompt `{ systemPrompt }` (`promptManager.js`). -/
structure Prompt where
  systemPrompt : String
deriving DecidableEq, Repr

/-- State of `promptManager.js`: the in-memory `customPrompts` map, the
on-disk prompt files, and the loaded default prompt. -/
structure PromptsState where
  custom : SMap Prompt
  files : SMap Prompt
  defaultPrompt : Option Prompt
deriving DecidableEq, Repr

/-- One history entry `{ role, parts: [{ text }] }` (`aiHandler.js`).  `parts`
keeps the text of each part. -/
structure Turn where
  role : String
  parts : List String
deriving DecidableEq, Repr

/-- Whole mutable state of the core: the session registry, the persisted
per-identity auth directories (`sessions/session-<mobile>`), the per-identity
history files (`histories/<mobile>.json`), and the prompt store. -/
structure ManagerState where
  clients : SMap SessionState
  authDirs : SMap Unit
  histories : SMap (List Turn)
  prompts : PromptsState
deriving DecidableEq, Repr

/-- An HTTP response: status code, message and the pairing code field when the
payload carries one. -/
structure Response where
  status : Nat
  message : String
  pairingCode : Option String := none
deriving DecidableEq, Repr

/-- Fault injection for the three caught failure points of `removeSession`:
`client.destroy()`, `fs.remove(sessionPath)` and `aiHandler.clearHistory`. -/
structure RemoveFaults where
  destroyFails : Bool
  fsRemoveFails : Bool
  clearFails : Bool
deriving DecidableEq, Repr

/-- No injected faults. -/
def noFaults : RemoveFaults :=
  { destroyFails := false, fsRemoveFails := false, clearFails := false }

/-- Result of `removeSession`: the new state, the teardown steps that were
attempted, and the failures that were caught and logged. -/
structure RemoveResult where
  state : ManagerState
  steps : List String
  errors : List String
deriving DecidableEq, Repr

/-- Function `removeSession` of `sessionManager.js` (lines 47-76).  Every step
sits in its own `try/catch`, so a failure is logged (recorded in `errors`) and
the remaining steps still run; the function itself never throws.  `fs.remove`
on an absent path succeeds, so it can only fail when the directory exists. -/
def removeSession (faults : RemoveFaults) (st : ManagerState) (mobile : String) :
    RemoveResult :=
  let entry := SMap.get st.clients mobile
  let hasClient : Bool := match entry with
    | some e => e.client
    | none => false
  let steps1 : List String := if hasClient then ["destroy"] else []
  let errs1 : List String :=
    if hasClient && faults.destroyFails then ["destroy"] else []
  let dirPresent := SMap.contains st.authDirs mobile
  let steps2 := steps1 ++ ["removeAuth"]
  let errs2 := errs1 ++ (if dirPresent && faults.fsRemoveFails then ["removeAuth"] else [])
  let dirs' := if dirPresent && faults.fsRemoveFails then st.authDirs
    else SMap.del st.authDirs mobile
  let hasHandler : Bool := match entry with
    | some e => e.aiHandler.isSome
    | none => false
  let steps3 := steps2 ++ (if hasHandler then ["clearHistory"] else [])
  let errs3 := errs2 ++ (if hasHandler && faults.clearFails then ["clearHistory"] else [])
  let hists' := if hasHandler && !faults.clearFails then SMap.del st.histories mobile
    else st.histories
  let steps4 := steps3 ++ ["deleteEntry"]
  { state :=
      { st with
        clients := SMap.del st.clients mobile
        authDirs := dirs'
        histories := hists' }
    steps := steps4
    errors := errs3 }

/-- Internal `getPromptByMobile` of `promptManager.js` (lines 84-92):
`customPrompts.get(mobileNumber) || defaultPrompt`; a missing result makes the
function throw, modelled by `none`. -/
def getPromptByMobile (ps : PromptsState) (mobile : String) : Option Prompt :=
  let m := normalizeMobile mobile
  match SMap.get ps.custom m with
  | some p => some p
  | none => ps.defaultPrompt

/-- `setPrompt` of `promptManager.js` (lines 107-132).  `writeFails` injects a
failure of `fs.writeJson`; the map is only updated after a successful write.
An empty `systemPrompt` is falsy in JavaScript and is rejected with 400. -/
def setPrompt (writeFails : Bool) (ps : PromptsState) (mobile systemPrompt : String) :
    Response × PromptsState :=
  let m := normalizeMobile mobile
  if systemPrompt = "" then
    ({ status := 400, message := "Missing systemPrompt in request body." }, ps)
  else if writeFails then
    ({ status := 500, message := "Failed to set prompt" }, ps)
  else
    ({ status := 200, message := "Prompt updated for " ++ m },
     { ps with
       files := SMap.set ps.files m { systemPrompt := systemPrompt }
       custom := SMap.set ps.custom m { systemPrompt := systemPrompt } })

/-- `deletePrompt` of `promptManager.js` (lines 135-153).  The map entry is
only deleted after `fs.remove` succeeds. -/
def deletePrompt (removeFails : Bool) (ps : PromptsState) (mobile : String) :
    Response × PromptsState :=
  let m := normalizeMobile mobile
  if SMap.contains ps.custom m then
    if removeFails then
      ({ status := 500, message := "Failed to delete prompt" }, ps)
    else
      ({ status := 200, message := "Custom prompt removed for " ++ m },
       { ps with files := SMap.del ps.files m, custom := SMap.del ps.custom m })
  else
    ({ status := 404, message := "No custom prompt found for this mobile number." }, ps)

/-- `handler.addMessageToHistory` of `aiHandler.js` (lines 197-215): load the
stored history (empty when the file is absent), skip the append when the last
turn has the same role and the same first-part text, otherwise push
`{ role, parts: [{ text: content }] }` and write the file back. -/
def addMessageToHistory (hists : SMap (List Turn)) (mobile role content : String) :
    SMap (List Turn) :=
  let history := (SMap.get hists mobile).getD []
  match history.getLast? with
  | some last =>
      if last.role = role ∧ last.parts.head? = some content then hists
      else SMap.set hists mobile (history ++ [{ role := role, parts := [content] }])
  | none => SMap.set hists mobile (history ++ [{ role := role, parts := [content] }])

/-- Outcome of the external Gemini call `chat.sendMessage`: a reply text, or a
thrown error carrying a message. -/
inductive GenOutcome
  | ok (text : String)
  | fail (emsg : String)
deriving DecidableEq, Repr

/-- `generateAIResponse` of `aiHandler.js` (lines 233-291).  The missing API
key throws before the `try`; inside the `try`, a missing or empty system
prompt throws, then the user turn is appended, then the model is called; every
throw inside the `try` is caught and rethrown wrapped in
`Failed to generate AI response:`. -/
def generateAIResponse (apiKeyConfigured : Bool) (gen : GenOutcome)
    (ps : PromptsState) (hists : SMap (List Turn)) (userMessage mobileNumber : String) :
    Except String String × SMap (List Turn) :=
  if apiKeyConfigured = false then
    (Except.error "Gemini API key is not configured.", hists)
  else
    match getPromptByMobile ps mobileNumber with
    | none =>
        (Except.error "Failed to generate AI response: Prompt not found.", hists)
    | some sp =>
        if sp.systemPrompt = "" then
          (Except.error ("Failed to generate AI response: System prompt not found or invalid for "
            ++ mobileNumber), hists)
        else
          let hists1 := addMessageToHistory hists mobileNumber "user" userMessage
          match gen with
          | GenOutcome.fail emsg =>
              (Except.error ("Failed to generate AI response: " ++ emsg), hists1)
          | GenOutcome.ok text =>
              (Except.ok text, addMessageToHistory hists1 mobileNumber "model" text)

/-- Observable result of one `message_create` callback: the new prompt store
and histories, the replies sent through the transport, the set-prompt
operations performed, and the utterances forwarded to the AI relay (identity,
utterance). -/
structure HandlerResult where
  prompts : PromptsState
  hists : SMap (List Turn)
  sends : List (String × String)
  promptSetCalls : List (String × String)
  relayCalls : List (String × String)
deriving DecidableEq, Repr

/-- The `client.on('message_create')` handler of `sessionManager.js`
(lines 275-321).  `ownerNumber` is `client.info.wid.user`, `msgFrom` is
`msg.from`, `body` is `msg.body`.  In the `.setprompt` owner branch the call
`promptManager.setPrompt` receives no `res`, swallows its own write failures
and never throws, so the handler always replies with the success text. -/
def handleMessageCreate (ownerNumber msgFrom body : String)
    (apiKeyConfigured : Bool) (gen : GenOutcome) (setWriteFails : Bool)
    (ps : PromptsState) (hists : SMap (List Turn)) : HandlerResult :=
  if startsWithDot body = false then
    { prompts := ps, hists := hists, sends := [], promptSetCalls := [], relayCalls := [] }
  else
    let fromNumber := (splitChar msgFrom '@').headD ""
    let command := jsTrim (dropFirst body)
    let commandName := (splitChar command ' ').headD ""
    let args := (splitChar command ' ').tail
    if commandName = "setprompt" ∧ fromNumber = ownerNumber then
      let newPrompt := joinSpace args
      if newPrompt = "" then
        { prompts := ps, hists := hists
          sends := [(msgFrom, "Please provide a prompt after the .setprompt command.")]
          promptSetCalls := [], relayCalls := [] }
      else
        let r := setPrompt setWriteFails ps ownerNumber newPrompt
        { prompts := r.2, hists := hists
          sends := [(msgFrom, "Prompt updated successfully!")]
          promptSetCalls := [(ownerNumber, newPrompt)], relayCalls := [] }
    else if 0 < command.length then
      let r := generateAIResponse apiKeyConfigured gen ps hists command fromNumber
      match r.1 with
      | Except.ok t =>
          if t = "" then
            { prompts := ps, hists := r.2, sends := []
              promptSetCalls := [], relayCalls := [(fromNumber, command)] }
          else
            { prompts := ps, hists := r.2, sends := [(msgFrom, t)]
              promptSetCalls := [], relayCalls := [(fromNumber, command)] }
      | Except.error _ =>
          { prompts := ps, hists := r.2
            sends := [(msgFrom, "Sorry, I encountered an error processing your request.")]
            promptSetCalls := [], relayCalls := [(fromNumber, command)] }
    else
      { prompts := ps, hists := hists
        sends := [(msgFrom, "Welcome! You can start a conversation by sending a message starting with a dot (.), or set a new prompt using .setprompt.")]
        promptSetCalls := [], relayCalls := [] }

/-- `sendMessage` of `sessionManager.js` (lines 375-398).  The returned list
holds the sends attempted through the transport; `sendFails` injects a failure
of `client.sendMessage`.  No branch mutates the state. -/
def sendMessage (st : ManagerState) (mobileRaw toId message : String) (sendFails : Bool) :
    Response × List (String × String) × ManagerState :=
  let m := normalizeMobile mobileRaw
  if toId = "" ∨ message = "" then
    ({ status := 400, message := "Missing to or message in request body." }, [], st)
  else
    match SMap.get st.clients m with
    | some e =>
        if e.client ∧ e.status = "ready" then
          if sendFails then
            ({ status := 500, message := "Failed to send message" }, [(toId, message)], st)
          else
            ({ status := 200, message := "Message sent successfully" }, [(toId, message)], st)
        else
          ({ status := 404, message := "Session not found or not ready." }, [], st)
    | none =>
        ({ status := 404, message := "Session not found or not ready." }, [], st)

/-- Outcome of the new-session sequence in `createOrReuseSession`:
`client.initialize()` throws, `client.requestPairingCode` throws, or a pairing
code is obtained. -/
inductive CreateOutcome
  | initFail
  | pairFail
  | ok (code : String)
deriving DecidableEq, Repr

/-- The full record stored right after `client.initialize()` succeeds
(`sessionManager.js` line 325). -/
def initializingPatch (now : Nat) : StatePatch :=
  { client := some true
    status := some "initializing"
    pairingCode := some none
    lastActive := some now
    aiHandler := some none }

/-- The update stored once `requestPairingCode` returns (line 329), and by the
fallback `qr` handler of the startup-recovery path (lines 107 and 110, where
the code may be the literal `ERROR` marker). -/
def pairingPatch (code : String) : StatePatch :=
  { status := some "pairing", pairingCode := some (some code) }

/-- The update of the `ready` callback (line 251). -/
def readyPatch (now : Nat) : StatePatch :=
  { client := some true, status := some "ready", pairingCode := some none,
    lastActive := some now }

/-- The update of the `authenticated` callback (line 256); note that it does
not mention `pairingCode`. -/
def authPatch (now : Nat) : StatePatch :=
  { client := some true, status := some "authenticated", lastActive := some now }

/-- The update of the `auth_failure` callback (line 261). -/
def authFailPatch (now : Nat) : StatePatch :=
  { client := some true, status := some "unauthenticated", pairingCode := some none,
    lastActive := some now }

/-- The update of the `disconnected` callback (line 268). -/
def discPatch (now : Nat) : StatePatch :=
  { client := some true, status := some "disconnected", pairingCode := some none,
    lastActive := some now }

/-- The `try` block creating a new client in `createOrReuseSession`
(lines 235-338): on any throw the `catch` calls `removeSession` and answers
500; otherwise the state passes through `initializing` and then `pairing` with
the obtained code, answered 201. -/
def createNewSession (st : ManagerState) (m : String) (now : Nat)
    (outcome : CreateOutcome) (faults : RemoveFaults) : Response × ManagerState :=
  match outcome with
  | CreateOutcome.initFail =>
      ({ status := 500, message := "Failed to initialize session" },
       (removeSession faults st m).state)
  | CreateOutcome.pairFail =>
      let st1 := { st with clients := updateSessionState st.clients m (initializingPatch now) }
      ({ status := 500, message := "Failed to initialize session" },
       (removeSession faults st1 m).state)
  | CreateOutcome.ok code =>
      let st1 := { st with clients := updateSessionState st.clients m (initializingPatch now) }
      let st2 := { st1 with clients := updateSessionState st1.clients m (pairingPatch code) }
      ({ status := 201, message := "Session initialization started. Use pairing code."
         pairingCode := some code }, st2)

/-- `createOrReuseSession` of `sessionManager.js` (lines 207-339): capacity
gate first, then the reuse branches for `ready`/`authenticated` (refreshing
`lastActive`), `pairing` and `initializing`, else the new-session sequence. -/
def createOrReuseSession (maxSessions : Nat) (st : ManagerState) (mobileRaw : String)
    (now : Nat) (outcome : CreateOutcome) (faults : RemoveFaults) :
    Response × ManagerState :=
  let m := normalizeMobile mobileRaw
  if maxSessions ≤ SMap.size st.clients ∧ SMap.contains st.clients m = false then
    ({ status := 429, message := "Maximum number of sessions reached." }, st)
  else
    match SMap.get st.clients m with
    | some e =>
        if e.client ∧ (e.status = "ready" ∨ e.status = "authenticated") then
          ({ status := 200, message := "Session already active with status: " ++ e.status },
           { st with clients := updateSessionState st.clients m ({ lastActive := some now }) })
        else if e.client ∧ e.status = "pairing" then
          ({ status := 200, message := "Session is pairing", pairingCode := e.pairingCode }, st)
        else if e.status = "initializing" then
          ({ status := 200, message := "Session is currently initializing, please wait." }, st)
        else
          createNewSession st m now outcome faults
    | none => createNewSession st m now outcome faults

/-- `getSessionStatus` of `sessionManager.js` (lines 342-358): the observable
pairing code is `null` whenever the status is not `pairing`. -/
def getSessionStatus (st : ManagerState) (mobileRaw : String) : Response :=
  let m := normalizeMobile mobileRaw
  match SMap.get st.clients m with
  | none => { status := 404, message := "Session not found" }
  | some e =>
      { status := 200, message := e.status
        pairingCode := if e.status = "pairing" then e.pairingCode else none }

/-- One externally driven event of the system: an HTTP request on the session
manager, a transport lifecycle callback (bound per client, so it can fire for
any mobile number at any time), an inbound message, or an HTTP request on the
prompt manager.  `qrEvt` is the fallback of the startup-recovery path that
turns a QR challenge into a pairing code (or the literal `ERROR` marker);
`loadInitEvt` is the record stored by `loadExistingSessions` after
`client.initialize()`. -/
inductive Event
  | createReq (mobileRaw : String) (now : Nat) (outcome : CreateOutcome) (faults : RemoveFaults)
  | qrEvt (mobile : String) (code : String)
  | readyEvt (mobile : String) (now : Nat)
  | authEvt (mobile : String) (now : Nat)
  | authFailEvt (mobile : String) (now : Nat)
  | discEvt (mobile : String) (now : Nat)
  | loadInitEvt (mobile : String) (now : Nat)
  | removeEvt (mobile : String) (faults : RemoveFaults)
  | msgEvt (ownerNumber msgFrom body : String) (apiKeyConfigured : Bool)
      (gen : GenOutcome) (setWriteFails : Bool)
  | sendEvt (mobileRaw toId message : String) (sendFails : Bool)
  | setPromptReq (mobileRaw p : String) (writeFails : Bool)
  | deletePromptReq (mobileRaw : String) (removeFails : Bool)

/-- State transition for one event, following the corresponding handler in
`sessionManager.js` / `promptManager.js`. -/
def stepEv (maxSessions : Nat) (st : ManagerState) (ev : Event) : ManagerState :=
  match ev with
  | Event.createReq raw now outcome faults =>
      (createOrReuseSession maxSessions st raw now outcome faults).2
  | Event.qrEvt m code =>
      { st with clients := updateSessionState st.clients m (pairingPatch code) }
  | Event.readyEvt m now =>
      { st with clients := updateSessionState st.clients m (readyPatch now) }
  | Event.authEvt m now =>
      { st with clients := updateSessionState st.clients m (authPatch now) }
  | Event.authFailEvt m now =>
      { st with clients := updateSessionState st.clients m (authFailPatch now) }
  | Event.discEvt m now =>
      { st with clients := updateSessionState st.clients m (discPatch now) }
  | Event.loadInitEvt m now =>
      { st with clients := updateSessionState st.clients m (initializingPatch now) }
  | Event.removeEvt m faults => (removeSession faults st m).state
  | Event.msgEvt owner msgFrom body apiKey gen wf =>
      let r := handleMessageCreate owner msgFrom body apiKey gen wf st.prompts st.histories
      { st with prompts := r.prompts, histories := r.hists }
  | Event.sendEvt raw toId message sendFails =>
      (sendMessage st raw toId message sendFails).2.2
  | Event.setPromptReq raw p wf => { st with prompts := (setPrompt wf st.prompts raw p).2 }
  | Event.deletePromptReq raw rf => { st with prompts := (deletePrompt rf st.prompts raw).2 }

/-- States reachable from a fresh process: the registry map starts empty
(`const clients = new Map()`), while the on-disk directories, history files
and prompt store may hold anything left from earlier runs. -/
inductive Reachable (maxSessions : Nat) : ManagerState → Prop
  | start (dirs : SMap Unit) (hists : SMap (List Turn)) (ps : PromptsState) :
      Reachable maxSessions
        { clients := [], authDirs := dirs, histories := hists, prompts := ps }
  | step {st : ManagerState} (h : Reachable maxSessions st) (ev : Event) :
      Reachable maxSessions (stepEv maxSessions st ev)

/-- The record produced by the reuse branch: the same session with only
lastActive replaced. -/
def refreshLast (e : SessionState) (now : Nat) : SessionState :=
  { e with lastActive := now }

/-- An empty prompt store with no default loaded. -/
def psNoneW : PromptsState :=
  { custom := [], files := [], defaultPrompt := none }

/-- A ready session holding a transport handle, last active at time 0. -/
def sessReadyW : SessionState :=
  { client := true, status := "ready", pairingCode := none, lastActive := 0,
    aiHandler := none }

/-- A manager state whose registry holds only the ready session for 1. -/
def stReadyW : ManagerState :=
  { clients := [("1", sessReadyW)]
    authDirs := []
    histories := []
    prompts := { custom := [], files := [], defaultPrompt := none } }

/-- A session as `createOrReuseSession` stores it: transport handle present,
aiHandler stored as null. -/
def sessPairingW : SessionState :=
  { client := true, status := "pairing", pairingCode := some "ABCD", lastActive := 0,
    aiHandler := none }

/-- A manager state with a session for 3 exactly as the program stores it
(transport handle present, aiHandler null), its persisted auth directory, and
a non-empty history. -/
def stRealFullW : ManagerState :=
  { clients := [("3", sessReadyW)]
    authDirs := [("3", ())]
    histories := [("3", [{ role := "user", parts := ["hi"] }])]
    prompts := { custom := [], files := [], defaultPrompt := none } }

/-- Faults for the C5 witness: the transport destroy and the history clear
fail, the auth-state delete succeeds. -/
def faultsW : RemoveFaults :=
  { destroyFails := true, fsRemoveFails := false, clearFails := true }

/-- All three removal faults injected at once. -/
def allFaultsW : RemoveFaults :=
  { destroyFails := true, fsRemoveFails := true, clearFails := true }

/-- A session that is authenticated but not yet ready. -/
def sessAuthW : SessionState :=
  { client := true, status := "authenticated", pairingCode := none, lastActive := 0,
    aiHandler := none }

/-- A manager state whose registry holds only the authenticated session for 5. -/
def stAuthW : ManagerState :=
  { clients := [("5", sessAuthW)]
    authDirs := []
    histories := []
    prompts := psNoneW }

/-- A stored pairing code is legal only in the pairing state or (because the
authenticated callback does not clear it) the authenticated state. -/
def PairingCodeOk (e : SessionState) : Prop :=
  e.pairingCode.isSome = true → e.status = "pairing" ∨ e.status = "authenticated"

/-- All registry entries satisfy PairingCodeOk. -/
def RegistryOk (reg : SMap SessionState) : Prop :=
  ∀ m e, SMap.get reg m = some e → PairingCodeOk e

/-- A fresh process state with nothing on disk and no default prompt. -/
def st0W : ManagerState :=
  { clients := [], authDirs := [], histories := [], prompts := psNoneW }

/-- Create request for identity 1 at time 0 obtaining pairing code ABCD. -/
def evPairC8 : Event := Event.createReq "1" 0 (CreateOutcome.ok "ABCD") noFaults

/-- Authenticated callback for identity 1 at time 1. -/
def evAuthC8 : Event := Event.authEvt "1" 1

/-- The state after pairing identity 1 and receiving its authenticated
callback. -/
def stAuthCodeC8 : ManagerState := stepEv 10 (stepEv 10 st0W evPairC8) evAuthC8

/-- The session record stored for identity 1 in that state. -/
def entryC8 : SessionState :=
  { client := true, status := "authenticated", pairingCode := some "ABCD",
    lastActive := 1, aiHandler := none }

/-- A prompt store holding only a loaded default prompt. -/
def psDfltW : PromptsState :=
  { custom := [], files := [], defaultPrompt := some { systemPrompt := "d" } }

/-- A fresh process state whose prompt store has the default loaded. -/
def st0C3 : ManagerState :=
  { clients := [], authDirs := [], histories := [], prompts := psDfltW }

/-- Create request for identity 1 obtaining pairing code CODE. -/
def evC3a : Event := Event.createReq "1" 0 (CreateOutcome.ok "CODE") noFaults

/-- Inbound command message .hi from the owner identity 1; the Gemini call
answers yo, building a two-turn history for identity 1. -/
def evC3b : Event := Event.msgEvt "1" "1@c.us" ".hi" true (GenOutcome.ok "yo") false

/-- Explicit session removal for identity 1 with no injected faults. -/
def evC3c : Event := Event.removeEvt "1" noFaults

/-- The state after create, one answered message, and removal. -/
def stC3 : ManagerState := stepEv 10 (stepEv 10 (stepEv 10 st0C3 evC3a) evC3b) evC3c

/-- Startup-recovery rehydration of the persisted folder for identity 1
(`loadExistingSessions`, which enumerates session directories with no
capacity check). -/
def evLoad1 : Event := Event.loadInitEvt "1" 0

/-- Startup-recovery rehydration of the persisted folder for identity 2. -/
def evLoad2 : Event := Event.loadInitEvt "2" 0

/-- With the maximum set to 1, recovering two persisted sessions yields a
registry of size 2. -/
def stOverCap : ManagerState := stepEv 1 (stepEv 1 st0W evLoad1) evLoad2

/-- The reachable state right before the removal of the C3 run: identity 1
has a registry entry (aiHandler null, as always) and a two-turn history. -/
def stPreC5 : ManagerState := stepEv 10 (stepEv 10 st0C3 evC3a) evC3b

@[simp]
theorem SMap.get_nil {α : Type} (k : String) : SMap.get ([] : SMap α) k = none := rfl

@[simp]
theorem SMap.get_set_self {α : Type} (l : SMap α) (k : String) (v : α) :
    SMap.get (SMap.set l k v) k = some v := by
  induction l with
  | nil => simp [SMap.set, SMap.get]
  | cons p t ih =>
    obtain ⟨k₀, v₀⟩ := p
    by_cases h : k₀ = k
    · simp [SMap.set, SMap.get, h]
    · simp [SMap.set, SMap.get, h, ih]

theorem SMap.get_set_ne {α : Type} (l : SMap α) (k k' : String) (v : α)
    (h : k' ≠ k) : SMap.get (SMap.set l k v) k' = SMap.get l k' := by
  induction l with
  | nil => simp [SMap.set, SMap.get, Ne.symm h]
  | cons p t ih =>
    obtain ⟨k₀, v₀⟩ := p
    by_cases h₀ : k₀ = k
    · subst h₀
      simp [SMap.set, SMap.get, Ne.symm h]
    · simp [SMap.set, SMap.get, h₀, ih]

@[simp]
theorem SMap.get_del_self {α : Type} (l : SMap α) (k : String) :
    SMap.get (SMap.del l k) k = none := by
  induction l with
  | nil => simp [SMap.del]
  | cons p t ih =>
    obtain ⟨k₀, v₀⟩ := p
    by_cases h : k₀ = k
    · simp [SMap.del, h, ih]
    · simp [SMap.del, SMap.get, h, ih]

theorem SMap.get_del_ne {α : Type} (l : SMap α) (k k' : String) (h : k' ≠ k) :
    SMap.get (SMap.del l k) k' = SMap.get l k' := by
  induction l with
  | nil => simp [SMap.del]
  | cons p t ih =>
    obtain ⟨k₀, v₀⟩ := p
    by_cases h₀ : k₀ = k
    · subst h₀
      simp [SMap.del, SMap.get, Ne.symm h, ih]
    · simp [SMap.del, SMap.get, h₀, ih]

theorem SMap.size_set {α : Type} (l : SMap α) (k : String) (v : α) :
    SMap.size (SMap.set l k v) =
      if SMap.contains l k then SMap.size l else SMap.size l + 1 := by
  induction l with
  | nil => simp [SMap.set, SMap.size, SMap.contains, SMap.get]
  | cons p t ih =>
    obtain ⟨k₀, v₀⟩ := p
    by_cases h : k₀ = k
    · simp [SMap.set, SMap.size, SMap.contains, SMap.get, h]
    · have hs : SMap.set ((k₀, v₀) :: t) k v = (k₀, v₀) :: SMap.set t k v := by
        simp [SMap.set, h]
      have hg : SMap.get ((k₀, v₀) :: t) k = SMap.get t k := by
        simp [SMap.get, h]
      rw [hs]
      simp only [SMap.size, List.length_cons, SMap.contains, hg] at ih ⊢
      rw [ih]
      by_cases hc : (SMap.get t k).isSome = true
      · rw [if_pos hc, if_pos hc]
      · rw [if_neg hc, if_neg hc]

theorem SMap.size_del_le {α : Type} (l : SMap α) (k : String) :
    SMap.size (SMap.del l k) ≤ SMap.size l := by
  induction l with
  | nil => simp [SMap.del]
  | cons p t ih =>
    obtain ⟨k₀, v₀⟩ := p
    by_cases h : k₀ = k
    · simp only [SMap.del, h, if_pos rfl, SMap.size, List.length_cons]
      exact Nat.le_succ_of_le ih
    · simp only [SMap.del, h, if_neg h, SMap.size, List.length_cons]
      exact Nat.succ_le_succ ih

theorem SMap.contains_set_self {α : Type} (l : SMap α) (k : String) (v : α) :
    SMap.contains (SMap.set l k v) k = true := by
  simp [SMap.contains]

theorem addMessageToHistory_cases (h2 : SMap (List Turn)) (m role text : String) :
    (addMessageToHistory h2 m role text =
        SMap.set h2 m (((SMap.get h2 m).getD []) ++ [{ role := role, parts := [text] }])) ∨
    (addMessageToHistory h2 m role text = h2 ∧
      ∃ last, ((SMap.get h2 m).getD []).getLast? = some last ∧
        last.role = role ∧ last.parts.head? = some text) := by
  unfold addMessageToHistory
  cases hc : ((SMap.get h2 m).getD []).getLast? with
  | none => left; simp [hc]
  | some last =>
    by_cases hd : last.role = role ∧ last.parts.head? = some text
    · right
      exact ⟨by simp [hc, hd], last, rfl, hd.1, hd.2⟩
    · left
      simp [hc, hd]

theorem addMessageToHistory_twice (h2 : SMap (List Turn)) (m role text : String) :
    addMessageToHistory (addMessageToHistory h2 m role text) m role text =
      addMessageToHistory h2 m role text := by
  rcases addMessageToHistory_cases h2 m role text with hA | ⟨hB, last, hlast, hr, ht⟩
  · rw [hA]
    unfold addMessageToHistory
    rw [SMap.get_set_self]
    simp [List.getLast?_concat]
  · rw [hB, hB]

/-- Claim C4: appending a turn whose role and text equal those of the current
last turn leaves the stored history unchanged, and appending the same pair
twice in a row (from any starting store) stores exactly one turn, not two. -/
theorem history_append_dup_idempotent (hists hists2 : SMap (List Turn))
    (m role text : String) (last : Turn)
    (hl : ((SMap.get hists m).getD []).getLast? = some last)
    (hr : last.role = role) (ht : last.parts.head? = some text) :
    addMessageToHistory hists m role text = hists ∧
    addMessageToHistory (addMessageToHistory hists2 m role text) m role text =
      addMessageToHistory hists2 m role text := by
  refine ⟨?_, addMessageToHistory_twice hists2 m role text⟩
  unfold addMessageToHistory
  simp [hl, hr, ht]

/-- Witness for C4 at a concrete store whose last turn for identity 1 is a
user turn saying hi. -/
theorem history_append_dup_idempotent_w :
    addMessageToHistory [("1", [{ role := "user", parts := ["hi"] }])] "1" "user" "hi" =
      [("1", [{ role := "user", parts := ["hi"] }])] ∧
    addMessageToHistory (addMessageToHistory [] "1" "user" "hi") "1" "user" "hi" =
      addMessageToHistory [] "1" "user" "hi" :=
  history_append_dup_idempotent [("1", [{ role := "user", parts := ["hi"] }])] []
    "1" "user" "hi" { role := "user", parts := ["hi"] } (by decide) rfl rfl

/-- Claim C9: a successful set of prompt text P for an identity makes the
resolver return exactly that prompt, and a successful delete makes it return
the loaded default prompt. -/
theorem prompt_set_delete_roundtrip (ps : PromptsState) (mobile p : String) (d : Prompt)
    (hp : p ≠ "")
    (hc : SMap.contains ps.custom (normalizeMobile mobile) = true)
    (hd : ps.defaultPrompt = some d) :
    getPromptByMobile (setPrompt false ps mobile p).2 mobile = some { systemPrompt := p } ∧
    getPromptByMobile (deletePrompt false ps mobile).2 mobile = some d := by
  constructor
  · unfold setPrompt getPromptByMobile
    simp [hp]
  · unfold deletePrompt getPromptByMobile
    simp [hc, hd]

/-- Witness for C9 at a concrete prompt store holding a custom prompt for
identity 9 and a default prompt. -/
theorem prompt_set_delete_roundtrip_w :
    getPromptByMobile
        (setPrompt false
          { custom := [("9", { systemPrompt := "old" })]
            files := [("9", { systemPrompt := "old" })]
            defaultPrompt := some { systemPrompt := "dflt" } } "9" "Be terse").2 "9" =
      some { systemPrompt := "Be terse" } ∧
    getPromptByMobile
        (deletePrompt false
          { custom := [("9", { systemPrompt := "old" })]
            files := [("9", { systemPrompt := "old" })]
            defaultPrompt := some { systemPrompt := "dflt" } } "9").2 "9" =
      some { systemPrompt := "dflt" } :=
  prompt_set_delete_roundtrip
    { custom := [("9", { systemPrompt := "old" })]
      files := [("9", { systemPrompt := "old" })]
      defaultPrompt := some { systemPrompt := "dflt" } }
    "9" "Be terse" { systemPrompt := "dflt" } (by decide) (by decide) rfl

/-- Claim C6: when the API key is configured, the prompt resolves, and the
external generation call fails, the error propagates wrapped as a generation
failure and the history store ends exactly at the appended user turn: no model
turn is added. -/
theorem generate_failure_keeps_user_turn (ps : PromptsState) (hists : SMap (List Turn))
    (userMessage mobile emsg : String) (sp : Prompt)
    (hsp : getPromptByMobile ps mobile = some sp) (hne : sp.systemPrompt ≠ "") :
    (generateAIResponse true (GenOutcome.fail emsg) ps hists userMessage mobile).1 =
      Except.error ("Failed to generate AI response: " ++ emsg) ∧
    (generateAIResponse true (GenOutcome.fail emsg) ps hists userMessage mobile).2 =
      addMessageToHistory hists mobile "user" userMessage := by
  unfold generateAIResponse
  simp [hsp, hne]

/-- Witness for C6 at an empty history store with only a default prompt. -/
theorem generate_failure_keeps_user_turn_w :
    (generateAIResponse true (GenOutcome.fail "boom")
        { custom := [], files := [], defaultPrompt := some { systemPrompt := "d" } }
        [] "hello" "7").1 =
      Except.error ("Failed to generate AI response: " ++ "boom") ∧
    (generateAIResponse true (GenOutcome.fail "boom")
        { custom := [], files := [], defaultPrompt := some { systemPrompt := "d" } }
        [] "hello" "7").2 =
      addMessageToHistory [] "7" "user" "hello" :=
  generate_failure_keeps_user_turn
    { custom := [], files := [], defaultPrompt := some { systemPrompt := "d" } }
    [] "hello" "7" "boom" { systemPrompt := "d" } (by decide) (by decide)

/-- Claim C10: with a valid body, when the identity has no session or its
session's status is anything other than ready (authenticated included), the
send operation answers 404, attempts no transport send, and leaves the state
unchanged; hence a send is attempted only for an existing ready session. -/
theorem sendMessage_requires_ready (st : ManagerState) (mobileRaw toId msg : String)
    (sendFails : Bool) (hto : toId ≠ "") (hmsg : msg ≠ "")
    (hnr : ∀ e, SMap.get st.clients (normalizeMobile mobileRaw) = some e →
      e.status ≠ "ready") :
    (sendMessage st mobileRaw toId msg sendFails).1.status = 404 ∧
    (sendMessage st mobileRaw toId msg sendFails).2.1 = [] ∧
    (sendMessage st mobileRaw toId msg sendFails).2.2 = st := by
  unfold sendMessage
  cases hget : SMap.get st.clients (normalizeMobile mobileRaw) with
  | none => simp [hto, hmsg, hget]
  | some e => simp [hto, hmsg, hget, hnr e hget]

theorem removeSession_state_clients (faults : RemoveFaults) (st : ManagerState) (m : String) :
    (removeSession faults st m).state.clients = SMap.del st.clients m := rfl

theorem removeSession_clients_gone (faults : RemoveFaults) (st : ManagerState) (m : String) :
    SMap.get (removeSession faults st m).state.clients m = none := by
  rw [removeSession_state_clients, SMap.get_del_self]

theorem removeSession_steps_no_handler (faults : RemoveFaults) (st : ManagerState)
    (m : String) (e : SessionState) (hget : SMap.get st.clients m = some e)
    (hc : e.client = true) (ha : e.aiHandler = none) :
    (removeSession faults st m).steps = ["destroy", "removeAuth", "deleteEntry"] := by
  unfold removeSession
  simp [hget, hc, ha]

theorem removeSession_histories_no_handler (faults : RemoveFaults) (st : ManagerState)
    (m : String) (e : SessionState) (hget : SMap.get st.clients m = some e)
    (ha : e.aiHandler = none) :
    (removeSession faults st m).state.histories = st.histories := by
  unfold removeSession
  simp [hget, ha]

theorem removeSession_authDirs_cleared (faults : RemoveFaults) (st : ManagerState)
    (m : String) (hf : faults.fsRemoveFails = false) :
    SMap.contains (removeSession faults st m).state.authDirs m = false := by
  unfold removeSession
  simp [hf, SMap.contains, SMap.get_del_self]

theorem removeSession_no_errors (f2 : RemoveFaults) (st : ManagerState) (m : String)
    (hcl : SMap.get st.clients m = none) (hdir : SMap.contains st.authDirs m = false) :
    (removeSession f2 st m).errors = [] := by
  unfold removeSession
  simp [hcl, hdir]

/-- Claim C5 amended: for a session as the program actually stores it
(transport handle present, aiHandler null), removal attempts the destroy,
auth-state delete and registry-entry delete steps whatever faults the earlier
steps hit, but never the clear-history step, so the stored history survives;
the registry entry is deleted, a second consecutive removal also leaves no
entry, and (when the first auth-state deletion went through, so the path is
already gone) the second call logs no error at all. -/
theorem remove_idempotent_best_effort (faults f2 : RemoveFaults) (st : ManagerState)
    (m : String) (e : SessionState) (hget : SMap.get st.clients m = some e)
    (hc : e.client = true) (ha : e.aiHandler = none) :
    (removeSession faults st m).steps = ["destroy", "removeAuth", "deleteEntry"] ∧
    (removeSession faults st m).state.histories = st.histories ∧
    SMap.get (removeSession faults st m).state.clients m = none ∧
    SMap.get (removeSession f2 (removeSession faults st m).state m).state.clients m = none ∧
    (faults.fsRemoveFails = false →
      (removeSession f2 (removeSession faults st m).state m).errors = []) :=
  ⟨removeSession_steps_no_handler faults st m e hget hc ha,
   removeSession_histories_no_handler faults st m e hget ha,
   removeSession_clients_gone faults st m,
   removeSession_clients_gone f2 (removeSession faults st m).state m,
   fun hf => removeSession_no_errors f2 (removeSession faults st m).state m
     (removeSession_clients_gone faults st m)
     (removeSession_authDirs_cleared faults st m hf)⟩

theorem updateSessionState_size (reg : SMap SessionState) (m : String) (p : StatePatch) :
    SMap.size (updateSessionState reg m p) =
      if SMap.contains reg m then SMap.size reg else SMap.size reg + 1 := by
  unfold updateSessionState
  cases hget : SMap.get reg m with
  | some e => simp [SMap.size_set, SMap.contains, hget]
  | none => simp [SMap.size_set, SMap.contains, hget]

theorem updateSessionState_contains (reg : SMap SessionState) (m : String) (p : StatePatch) :
    SMap.contains (updateSessionState reg m p) m = true := by
  unfold updateSessionState
  cases hget : SMap.get reg m <;> simp [SMap.contains]

theorem createNewSession_size (maxSessions : Nat) (st : ManagerState) (m : String)
    (now : Nat) (outcome : CreateOutcome) (faults : RemoveFaults)
    (hok : SMap.contains st.clients m = true ∨ SMap.size st.clients < maxSessions)
    (hsize : SMap.size st.clients ≤ maxSessions) :
    SMap.size (createNewSession st m now outcome faults).2.clients ≤ maxSessions := by
  have hupd : SMap.size (updateSessionState st.clients m (initializingPatch now)) ≤ maxSessions := by
    rw [updateSessionState_size]
    rcases hok with hcon | hlt
    · rw [if_pos hcon]; exact hsize
    · by_cases hcon : SMap.contains st.clients m = true
      · rw [if_pos hcon]; exact hsize
      · rw [if_neg hcon]; exact hlt
  cases outcome with
  | initFail =>
      rw [createNewSession, removeSession_state_clients]
      exact le_trans (SMap.size_del_le st.clients m) hsize
  | pairFail =>
      rw [createNewSession, removeSession_state_clients]
      exact le_trans (SMap.size_del_le _ m) hupd
  | ok code =>
      rw [createNewSession]
      simp only
      rw [updateSessionState_size, if_pos (updateSessionState_contains st.clients m _)]
      exact hupd

/-- Claim C1 amended: a create request for an identity with no registry entry
while the registry is at or above capacity answers 429 and leaves the whole
state unchanged; and a create request never pushes the registry size above
the configured maximum.  The bound is enforced only by this operation:
startup recovery and the lifecycle callbacks insert entries with no capacity
check, so the registry of the whole system can exceed the maximum. -/
theorem createOrReuse_capacity (maxSessions : Nat) (st : ManagerState) (raw : String)
    (now : Nat) (outcome : CreateOutcome) (faults : RemoveFaults) :
    (SMap.contains st.clients (normalizeMobile raw) = false →
      maxSessions ≤ SMap.size st.clients →
      (createOrReuseSession maxSessions st raw now outcome faults).1.status = 429 ∧
      (createOrReuseSession maxSessions st raw now outcome faults).2 = st) ∧
    (SMap.size st.clients ≤ maxSessions →
      SMap.size (createOrReuseSession maxSessions st raw now outcome faults).2.clients
        ≤ maxSessions) := by
  constructor
  · intro hcon hsize
    unfold createOrReuseSession
    rw [if_pos ⟨hsize, hcon⟩]
    exact ⟨rfl, rfl⟩
  · intro hsize
    unfold createOrReuseSession
    by_cases hguard : maxSessions ≤ SMap.size st.clients ∧
        SMap.contains st.clients (normalizeMobile raw) = false
    · rw [if_pos hguard]; exact hsize
    · rw [if_neg hguard]
      cases hget : SMap.get st.clients (normalizeMobile raw) with
      | some e =>
        dsimp only
        have hcon : SMap.contains st.clients (normalizeMobile raw) = true := by
          simp [SMap.contains, hget]
        by_cases h1 : e.client = true ∧ (e.status = "ready" ∨ e.status = "authenticated")
        · rw [if_pos h1]
          simp only
          rw [updateSessionState_size, if_pos hcon]
          exact hsize
        · rw [if_neg h1]
          by_cases h2 : e.client = true ∧ e.status = "pairing"
          · rw [if_pos h2]; exact hsize
          · rw [if_neg h2]
            by_cases h3 : e.status = "initializing"
            · rw [if_pos h3]; exact hsize
            · rw [if_neg h3]
              exact createNewSession_size maxSessions st _ now outcome faults
                (Or.inl hcon) hsize
      | none =>
        dsimp only
        have hcon : SMap.contains st.clients (normalizeMobile raw) = false := by
          simp [SMap.contains, hget]
        have hlt : SMap.size st.clients < maxSessions := by
          rcases Classical.em (maxSessions ≤ SMap.size st.clients) with hle | hnle
          · exact absurd ⟨hle, hcon⟩ hguard
          · exact Nat.lt_of_not_le hnle
        exact createNewSession_size maxSessions st _ now outcome faults (Or.inr hlt) hsize

/-- Counterexample to claim C7 as stated: re-requesting the ready session for
identity 1 at time 1 answers 200 on the reuse path but changes the stored
lastActive field from 0 to 1, so the session state is not left unmodified. -/
theorem createOrReuse_reuse_cex :
    (createOrReuseSession 10 stReadyW "1" 1 CreateOutcome.initFail noFaults).1.status = 200 ∧
    (SMap.get (createOrReuseSession 10 stReadyW "1" 1 CreateOutcome.initFail
        noFaults).2.clients "1").map SessionState.lastActive = some 1 ∧
    (SMap.get stReadyW.clients "1").map SessionState.lastActive = some 0 := by
  decide

/-- Claim C7 amended: a create request for an identity whose session holds a
transport handle and is ready or authenticated answers 200 and keeps status,
pairingCode, transport handle and aiHandler unchanged, refreshing only
lastActive to the current time. -/
theorem createOrReuse_reuse_refreshes (maxSessions : Nat) (st : ManagerState)
    (raw : String) (now : Nat) (outcome : CreateOutcome) (faults : RemoveFaults)
    (e : SessionState) (hget : SMap.get st.clients (normalizeMobile raw) = some e)
    (hc : e.client = true) (hs : e.status = "ready" ∨ e.status = "authenticated") :
    (createOrReuseSession maxSessions st raw now outcome faults).1.status = 200 ∧
    (createOrReuseSession maxSessions st raw now outcome faults).2 =
      { st with clients := SMap.set st.clients (normalizeMobile raw) (refreshLast e now) } := by
  unfold createOrReuseSession
  have hcon : SMap.contains st.clients (normalizeMobile raw) = true := by
    simp [SMap.contains, hget]
  have hguard : ¬(maxSessions ≤ SMap.size st.clients ∧
      SMap.contains st.clients (normalizeMobile raw) = false) := by
    simp [hcon]
  rw [if_neg hguard, hget]
  dsimp only
  rw [if_pos ⟨hc, hs⟩]
  refine ⟨rfl, ?_⟩
  unfold updateSessionState
  rw [hget]
  rfl

/-- Witness for the amended C7 at the concrete ready session, requested again
at time 5. -/
theorem createOrReuse_reuse_refreshes_w :
    (createOrReuseSession 10 stReadyW "1" 5 CreateOutcome.initFail noFaults).1.status = 200 ∧
    (createOrReuseSession 10 stReadyW "1" 5 CreateOutcome.initFail noFaults).2 =
      { stReadyW with clients := SMap.set stReadyW.clients (normalizeMobile "1") (refreshLast sessReadyW 5) } :=
  createOrReuse_reuse_refreshes 10 stReadyW "1" 5 CreateOutcome.initFail noFaults
    sessReadyW (by decide) rfl (Or.inl rfl)

/-- Witness for C1: with capacity 1 filled by the ready session for 1, the
create request for the absent identity 2 answers 429 and changes nothing. -/
theorem createOrReuse_capacity_w :
    ((createOrReuseSession 1 stReadyW "2" 0 CreateOutcome.initFail noFaults).1.status = 429 ∧
      (createOrReuseSession 1 stReadyW "2" 0 CreateOutcome.initFail noFaults).2 = stReadyW) ∧
    SMap.size (createOrReuseSession 1 stReadyW "2" 0 CreateOutcome.initFail
        noFaults).2.clients ≤ 1 := by
  have h := createOrReuse_capacity 1 stReadyW "2" 0 CreateOutcome.initFail noFaults
  exact ⟨h.1 (by decide) (by decide), h.2 (by decide)⟩

/-- Witness for C5 at the real-shaped session for 3 under injected destroy
and clear faults, with an all-faults second call. -/
theorem remove_idempotent_best_effort_w :
    (removeSession faultsW stRealFullW "3").steps = ["destroy", "removeAuth", "deleteEntry"] ∧
    (removeSession faultsW stRealFullW "3").state.histories = stRealFullW.histories ∧
    SMap.get (removeSession faultsW stRealFullW "3").state.clients "3" = none ∧
    SMap.get (removeSession allFaultsW
        (removeSession faultsW stRealFullW "3").state "3").state.clients "3" = none ∧
    (faultsW.fsRemoveFails = false →
      (removeSession allFaultsW
        (removeSession faultsW stRealFullW "3").state "3").errors = []) :=
  remove_idempotent_best_effort faultsW allFaultsW stRealFullW "3" sessReadyW
    (by decide) rfl rfl

/-- Witness for C10 at a session for 5 that is authenticated but not ready:
the send answers 404, attempts nothing and changes nothing. -/
theorem sendMessage_requires_ready_w :
    (sendMessage stAuthW "5" "9@c.us" "yo" false).1.status = 404 ∧
    (sendMessage stAuthW "5" "9@c.us" "yo" false).2.1 = [] ∧
    (sendMessage stAuthW "5" "9@c.us" "yo" false).2.2 = stAuthW :=
  sendMessage_requires_ready stAuthW "5" "9@c.us" "yo" false (by decide) (by decide)
    (by intro e he
        have h2 : some sessAuthW = some e := he
        cases h2
        decide)

theorem length_pos_of_ne_empty (s : String) (h : s ≠ "") : 0 < s.length := by
  cases s with
  | mk data =>
    cases data with
    | nil => exact absurd rfl h
    | cons c cs => simp [String.length]

/-- Claim C2: a command whose name is setprompt coming from a sender other
than the session owner never reaches the prompt store — no set call happens
and the prompt mapping is unchanged — and the whole command body is forwarded
to the AI relay as an ordinary utterance for the sender's identity. -/
theorem setprompt_non_owner_forwarded (ownerNumber msgFrom body : String)
    (apiKeyConfigured : Bool) (gen : GenOutcome) (setWriteFails : Bool)
    (ps : PromptsState) (hists : SMap (List Turn))
    (hdot : startsWithDot body = true)
    (hname : (splitChar (jsTrim (dropFirst body)) ' ').headD "" = "setprompt")
    (hne : (splitChar msgFrom '@').headD "" ≠ ownerNumber) :
    (handleMessageCreate ownerNumber msgFrom body apiKeyConfigured gen setWriteFails
        ps hists).prompts = ps ∧
    (handleMessageCreate ownerNumber msgFrom body apiKeyConfigured gen setWriteFails
        ps hists).promptSetCalls = [] ∧
    (handleMessageCreate ownerNumber msgFrom body apiKeyConfigured gen setWriteFails
        ps hists).relayCalls =
      [((splitChar msgFrom '@').headD "", jsTrim (dropFirst body))] := by
  have hcmd : jsTrim (dropFirst body) ≠ "" := by
    intro h0
    rw [h0] at hname
    exact absurd hname (by decide)
  have hlen : 0 < (jsTrim (dropFirst body)).length := length_pos_of_ne_empty _ hcmd
  unfold handleMessageCreate
  rw [hdot]
  have hcond : ¬((splitChar (jsTrim (dropFirst body)) ' ').headD "" = "setprompt" ∧
      (splitChar msgFrom '@').headD "" = ownerNumber) := fun hh => hne hh.2
  simp only [Bool.true_eq_false, if_false]
  rw [if_neg hcond, if_pos hlen]
  cases hg : (generateAIResponse apiKeyConfigured gen ps hists (jsTrim (dropFirst body))
      ((splitChar msgFrom '@').headD "")).1 with
  | ok t =>
      by_cases ht : t = "" <;> simp [hg, ht]
  | error e => simp [hg]

/-- Witness for C2: the setprompt command from sender 2 on the session owned
by 1 leaves the prompt store untouched and is relayed as plain input. -/
theorem setprompt_non_owner_forwarded_w :
    (handleMessageCreate "1" "2@c.us" ".setprompt Be terse" false (GenOutcome.fail "x")
        false psNoneW []).prompts = psNoneW ∧
    (handleMessageCreate "1" "2@c.us" ".setprompt Be terse" false (GenOutcome.fail "x")
        false psNoneW []).promptSetCalls = [] ∧
    (handleMessageCreate "1" "2@c.us" ".setprompt Be terse" false (GenOutcome.fail "x")
        false psNoneW []).relayCalls = [("2", "setprompt Be terse")] :=
  setprompt_non_owner_forwarded "1" "2@c.us" ".setprompt Be terse" false
    (GenOutcome.fail "x") false psNoneW [] (by decide) (by decide) (by decide)

theorem RegistryOk.set (reg : SMap SessionState) (m : String) (v : SessionState)
    (hreg : RegistryOk reg) (hv : PairingCodeOk v) : RegistryOk (SMap.set reg m v) := by
  intro m' e' hget
  by_cases hm : m' = m
  · subst hm
    rw [SMap.get_set_self] at hget
    cases hget
    exact hv
  · rw [SMap.get_set_ne reg m m' v hm] at hget
    exact hreg m' e' hget

theorem RegistryOk.del (reg : SMap SessionState) (m : String)
    (hreg : RegistryOk reg) : RegistryOk (SMap.del reg m) := by
  intro m' e' hget
  by_cases hm : m' = m
  · subst hm
    rw [SMap.get_del_self] at hget
    cases hget
  · rw [SMap.get_del_ne reg m m' hm] at hget
    exact hreg m' e' hget

theorem RegistryOk.update (reg : SMap SessionState) (m : String) (p : StatePatch)
    (hreg : RegistryOk reg)
    (hmerge : ∀ e, PairingCodeOk e → PairingCodeOk (applyPatch e p))
    (hnew : PairingCodeOk (patchToState p)) :
    RegistryOk (updateSessionState reg m p) := by
  unfold updateSessionState
  cases hget : SMap.get reg m with
  | some e => exact RegistryOk.set reg m _ hreg (hmerge e (hreg m e hget))
  | none => exact RegistryOk.set reg m _ hreg hnew

theorem PairingCodeOk_applyPatch_status (p : StatePatch) (e : SessionState)
    (hp : p.status = some "pairing" ∨ p.status = some "authenticated") :
    PairingCodeOk (applyPatch e p) := by
  intro _
  rcases hp with hp | hp <;> simp [applyPatch, hp]

theorem PairingCodeOk_patchToState_status (p : StatePatch)
    (hp : p.status = some "pairing" ∨ p.status = some "authenticated") :
    PairingCodeOk (patchToState p) := by
  intro _
  rcases hp with hp | hp <;> simp [patchToState, hp]

theorem PairingCodeOk_applyPatch_clears (p : StatePatch) (e : SessionState)
    (hp : p.pairingCode = some none) : PairingCodeOk (applyPatch e p) := by
  intro hph
  simp [applyPatch, hp] at hph

theorem PairingCodeOk_patchToState_clears (p : StatePatch)
    (hp : p.pairingCode = some none) : PairingCodeOk (patchToState p) := by
  intro hph
  simp [patchToState, hp] at hph

theorem PairingCodeOk_patchToState_absent (p : StatePatch)
    (hp : p.pairingCode = none) : PairingCodeOk (patchToState p) := by
  intro hph
  simp [patchToState, hp] at hph

theorem sendMessage_state_id (st : ManagerState) (raw toId message : String)
    (sendFails : Bool) : (sendMessage st raw toId message sendFails).2.2 = st := by
  unfold sendMessage
  by_cases h1 : toId = "" ∨ message = ""
  · rw [if_pos h1]
  · rw [if_neg h1]
    cases hget : SMap.get st.clients (normalizeMobile raw) with
    | none => rfl
    | some e =>
      dsimp only
      by_cases h2 : e.client = true ∧ e.status = "ready"
      · rw [if_pos h2]
        cases sendFails <;> rfl
      · rw [if_neg h2]

theorem createNewSession_preserves_RegistryOk (st : ManagerState) (m : String)
    (now : Nat) (outcome : CreateOutcome) (faults : RemoveFaults)
    (h : RegistryOk st.clients) :
    RegistryOk (createNewSession st m now outcome faults).2.clients := by
  have hinit : RegistryOk (updateSessionState st.clients m (initializingPatch now)) :=
    RegistryOk.update _ _ _ h
      (fun e _ => PairingCodeOk_applyPatch_clears _ e rfl)
      (PairingCodeOk_patchToState_clears _ rfl)
  cases outcome with
  | initFail =>
      rw [createNewSession, removeSession_state_clients]
      exact RegistryOk.del _ _ h
  | pairFail =>
      rw [createNewSession]
      dsimp only
      rw [removeSession_state_clients]
      exact RegistryOk.del _ _ hinit
  | ok code =>
      rw [createNewSession]
      dsimp only
      exact RegistryOk.update _ _ _ hinit
        (fun e _ => PairingCodeOk_applyPatch_status _ e (Or.inl rfl))
        (PairingCodeOk_patchToState_status _ (Or.inl rfl))

theorem createOrReuse_preserves_RegistryOk (maxSessions : Nat) (st : ManagerState)
    (raw : String) (now : Nat) (outcome : CreateOutcome) (faults : RemoveFaults)
    (h : RegistryOk st.clients) :
    RegistryOk (createOrReuseSession maxSessions st raw now outcome faults).2.clients := by
  unfold createOrReuseSession
  by_cases hguard : maxSessions ≤ SMap.size st.clients ∧
      SMap.contains st.clients (normalizeMobile raw) = false
  · rw [if_pos hguard]; exact h
  · rw [if_neg hguard]
    cases hget : SMap.get st.clients (normalizeMobile raw) with
    | some e =>
      dsimp only
      by_cases h1 : e.client = true ∧ (e.status = "ready" ∨ e.status = "authenticated")
      · rw [if_pos h1]
        exact RegistryOk.update _ _ _ h (fun e' he' => he')
          (PairingCodeOk_patchToState_absent _ rfl)
      · rw [if_neg h1]
        by_cases h2 : e.client = true ∧ e.status = "pairing"
        · rw [if_pos h2]; exact h
        · rw [if_neg h2]
          by_cases h3 : e.status = "initializing"
          · rw [if_pos h3]; exact h
          · rw [if_neg h3]
            exact createNewSession_preserves_RegistryOk st _ now outcome faults h
    | none =>
      dsimp only
      exact createNewSession_preserves_RegistryOk st _ now outcome faults h

theorem stepEv_preserves_RegistryOk (maxSessions : Nat) (st : ManagerState) (ev : Event)
    (h : RegistryOk st.clients) : RegistryOk (stepEv maxSessions st ev).clients := by
  cases ev with
  | createReq raw now outcome faults =>
      exact createOrReuse_preserves_RegistryOk maxSessions st raw now outcome faults h
  | qrEvt m code =>
      exact RegistryOk.update _ _ _ h
        (fun e _ => PairingCodeOk_applyPatch_status _ e (Or.inl rfl))
        (PairingCodeOk_patchToState_status _ (Or.inl rfl))
  | readyEvt m now =>
      exact RegistryOk.update _ _ _ h
        (fun e _ => PairingCodeOk_applyPatch_clears _ e rfl)
        (PairingCodeOk_patchToState_clears _ rfl)
  | authEvt m now =>
      exact RegistryOk.update _ _ _ h
        (fun e _ => PairingCodeOk_applyPatch_status _ e (Or.inr rfl))
        (PairingCodeOk_patchToState_status _ (Or.inr rfl))
  | authFailEvt m now =>
      exact RegistryOk.update _ _ _ h
        (fun e _ => PairingCodeOk_applyPatch_clears _ e rfl)
        (PairingCodeOk_patchToState_clears _ rfl)
  | discEvt m now =>
      exact RegistryOk.update _ _ _ h
        (fun e _ => PairingCodeOk_applyPatch_clears _ e rfl)
        (PairingCodeOk_patchToState_clears _ rfl)
  | loadInitEvt m now =>
      exact RegistryOk.update _ _ _ h
        (fun e _ => PairingCodeOk_applyPatch_clears _ e rfl)
        (PairingCodeOk_patchToState_clears _ rfl)
  | removeEvt m faults =>
      rw [stepEv, removeSession_state_clients]
      exact RegistryOk.del _ _ h
  | msgEvt owner msgFrom body apiKey gen wf => exact h
  | sendEvt raw toId message sendFails =>
      rw [stepEv, sendMessage_state_id]
      exact h
  | setPromptReq raw p wf => exact h
  | deletePromptReq raw rf => exact h

theorem reachable_RegistryOk (maxSessions : Nat) (st : ManagerState)
    (h : Reachable maxSessions st) : RegistryOk st.clients := by
  induction h with
  | start dirs hists ps => intro m e hget; cases hget
  | step hst ev ih => exact stepEv_preserves_RegistryOk _ _ ev ih

theorem reachable_stAuthCodeC8 : Reachable 10 stAuthCodeC8 :=
  Reachable.step (Reachable.step (Reachable.start [] [] psNoneW) evPairC8) evAuthC8

/-- Counterexample to claim C8 as stated: in the reachable state where the
session for 1 paired with code ABCD and then authenticated, the stored
pairingCode is still ABCD although the status is authenticated, not pairing —
the authenticated callback does not clear the stored code. -/
theorem pairingCode_cex :
    Reachable 10 stAuthCodeC8 ∧
    SMap.get stAuthCodeC8.clients "1" = some entryC8 ∧
    entryC8.pairingCode = some "ABCD" ∧
    entryC8.status = "authenticated" ∧
    entryC8.status ≠ "pairing" :=
  ⟨reachable_stAuthCodeC8, by decide, rfl, rfl, by decide⟩

/-- Claim C8 amended: in every reachable state a stored pairingCode is
non-null only while the status is pairing or authenticated — the transitions
to ready, unauthenticated and disconnected all clear it, while the
pairing-to-authenticated transition keeps it stored. -/
theorem pairingCode_status_invariant (maxSessions : Nat) (st : ManagerState)
    (h : Reachable maxSessions st) (m : String) (e : SessionState)
    (hget : SMap.get st.clients m = some e) (hp : e.pairingCode.isSome = true) :
    e.status = "pairing" ∨ e.status = "authenticated" :=
  reachable_RegistryOk maxSessions st h m e hget hp

/-- Witness for the amended C8 at the reachable authenticated-with-code
state. -/
theorem pairingCode_status_invariant_w :
    SMap.get stAuthCodeC8.clients "1" = some entryC8 ∧
    entryC8.pairingCode.isSome = true ∧
    (entryC8.status = "pairing" ∨ entryC8.status = "authenticated") :=
  ⟨by decide, rfl,
   pairingCode_status_invariant 10 stAuthCodeC8 reachable_stAuthCodeC8 "1" entryC8
     (by decide) rfl⟩

theorem reachable_stC3 : Reachable 10 stC3 :=
  Reachable.step (Reachable.step (Reachable.step (Reachable.start [] [] psDfltW)
    evC3a) evC3b) evC3c

/-- Claim C3 fails on the code: sessions store aiHandler as null and the
message handler keeps its AI handler local, so the clearHistory step of
removeSession is dead.  In this reachable run, identity 1 has a registry
entry and a two-turn history; after removeSession the registry entry is gone
but the stored history is intact, not empty. -/
theorem removeSession_leaves_history :
    Reachable 10 stC3 ∧
    SMap.get stC3.clients "1" = none ∧
    SMap.get stC3.histories "1" =
      some [{ role := "user", parts := ["hi"] },
            { role := "model", parts := ["yo"] }] :=
  ⟨reachable_stC3, by decide, by decide⟩

/-- Counterexample to claim C1 as stated: the registry size can exceed the
configured maximum, because startup recovery rehydrates every persisted
session directory with no capacity check.  With the maximum set to 1,
recovering the two persisted identities 1 and 2 reaches a registry of
size 2. -/
theorem registry_size_bound_cex :
    Reachable 1 stOverCap ∧
    SMap.size stOverCap.clients = 2 ∧
    ¬SMap.size stOverCap.clients ≤ 1 :=
  ⟨Reachable.step (Reachable.step (Reachable.start [] [] psNoneW) evLoad1) evLoad2,
   by decide, by decide⟩

/-- Counterexample to claim C5 as stated: on the reachable session for 1 —
whose aiHandler is null, as for every session the program creates — a
fault-free removal attempts only three teardown steps, skipping the
clear-history step, and the stored two-turn history survives untouched. -/
theorem remove_skips_clear_cex :
    Reachable 10 stPreC5 ∧
    (SMap.get stPreC5.clients "1").isSome = true ∧
    (removeSession noFaults stPreC5 "1").steps = ["destroy", "removeAuth", "deleteEntry"] ∧
    (removeSession noFaults stPreC5 "1").state.histories = stPreC5.histories ∧
    SMap.get stPreC5.histories "1" =
      some [{ role := "user", parts := ["hi"] },
            { role := "model", parts := ["yo"] }] :=
  ⟨Reachable.step (Reachable.step (Reachable.start [] [] psDfltW) evC3a) evC3b,
   by decide, by decide, by decide, by decide⟩
